import Mathlib

/-!
Verification development for the detection-to-pose correlation core of a
PTZ-camera animal-detection system: the `DynamicHeatmap`,
`BBoxCameraPoseConverter` and `DetectionPositionMatcher` classes of
`py/detection_tracking.py`, together with the camera pose collector that
feeds them.  Python floats are modelled as real numbers, numpy grids as
functions from integer indices to reals, and the fallible parts of the
Python code (division, dict lookup, uncaught exceptions) as `Option` /
`Except` values.
-/

namespace LAD

noncomputable section

/-- Python `int(x)` on a float: truncation toward zero. -/
def pyInt (r : ℝ) : ℤ := if r < 0 then ⌈r⌉ else ⌊r⌋

/-- Python `x % y` on floats: the result has the sign of the divisor, so for
`y > 0` it is `x - y * ⌊x / y⌋`. -/
def pymod (x y : ℝ) : ℝ := x - y * ⌊x / y⌋

/-- `np.clip` on integer values. -/
def npClipI (v lo hi : ℤ) : ℤ := max lo (min v hi)

/-- `np.clip` on real values. -/
def npClipR (v lo hi : ℝ) : ℝ := max lo (min v hi)

/-- The heatmap grid: `heatmap[p_idx, t_idx]` as a function of the two
integer bin indices.  Only indices inside `[0, pan_bins) × [0, tilt_bins)`
are ever produced by `pan_tilt_to_bin`. -/
def Grid : Type := ℤ → ℤ → ℝ

/-- The all-zero grid `np.zeros((pan_bins, tilt_bins))` built by
`DynamicHeatmap.__init__`. -/
def zeroGrid : Grid := fun _ _ => 0

/-- Configuration fields of `DynamicHeatmap.__init__`, in source order. -/
structure HeatmapCfg where
  pan_bins : ℕ
  tilt_bins : ℕ
  global_decay : ℝ
  local_decay : ℝ
  motion_blur : ℝ
  max_zoom : ℝ
  tilt_sigma_scale : ℝ
  pan_sigma_scale : ℝ

/-- The default `DynamicHeatmap` configuration (the one built by
`DetectionPositionMatcher.__init__`): 360 pan bins, 100 tilt bins,
`global_decay=0.001`, `local_decay=0.1`, `motion_blur=1`, `max_zoom=300`,
`tilt_sigma_scale=3`, `pan_sigma_scale=15`. -/
def defaultHeatmap : HeatmapCfg :=
  ⟨360, 100, 1/1000, 1/10, 1, 300, 3, 15⟩

/-- `DynamicHeatmap.pan_tilt_to_bin`:
`p_idx = int((pan % 360) / 360 * pan_bins)` and
`t_idx = int((tilt + 90) / 180 * tilt_bins)`, both clipped to the valid
index range. -/
def pan_tilt_to_bin (cfg : HeatmapCfg) (pan tilt : ℝ) : ℤ × ℤ :=
  let p_idx := pyInt (pymod pan 360 / 360 * cfg.pan_bins)
  let t_idx := pyInt ((tilt + 90) / 180 * cfg.tilt_bins)
  (npClipI p_idx 0 ((cfg.pan_bins : ℤ) - 1), npClipI t_idx 0 ((cfg.tilt_bins : ℤ) - 1))

/-- `DynamicHeatmap.bin_to_pan_tilt`:
`pan = p_idx / pan_bins * 360`, `tilt = t_idx / tilt_bins * 180 - 90`. -/
def bin_to_pan_tilt (cfg : HeatmapCfg) (p_idx t_idx : ℤ) : ℝ × ℝ :=
  (((p_idx : ℝ) / cfg.pan_bins) * 360, ((t_idx : ℝ) / cfg.tilt_bins) * 180 - 90)

/-- `DynamicHeatmap.zoom_to_sigma`:
`zoom_scale = 1 - clip(0.01 + zoom / max_zoom, 0, 1)`, sigmas scale it by the
pan/tilt sigma scales. -/
def zoom_to_sigma (cfg : HeatmapCfg) (zoom : ℝ) : ℝ × ℝ :=
  let zoom_scale := 1 - npClipR (1/100 + zoom / cfg.max_zoom) 0 1
  (zoom_scale * cfg.pan_sigma_scale, zoom_scale * cfg.tilt_sigma_scale)

/-- The denominator regulariser `eps = 1e-10` of `make_gaussian_kernel`. -/
def kernelEps : ℝ := 1 / 10 ^ 10

/-- `DynamicHeatmap.make_gaussian_kernel`, already transposed: the value the
kernel transpose `kernel.T` has at grid cell `(p, t)`.  The `np.ogrid` offsets
are `x = p - p_idx` (pan direction) and `y = t - t_idx` (tilt direction), and
the cell value is `exp(-(x² / (2(σx² + eps)) + y² / (2(σy² + eps))))`. -/
def make_gaussian_kernel (cfg : HeatmapCfg) (pan tilt sigma_x sigma_y : ℝ)
    (p t : ℤ) : ℝ :=
  let b := pan_tilt_to_bin cfg pan tilt
  Real.exp (-(((p : ℝ) - (b.1 : ℝ)) ^ 2 / (2 * (sigma_x ^ 2 + kernelEps)) +
      ((t : ℝ) - (b.2 : ℝ)) ^ 2 / (2 * (sigma_y ^ 2 + kernelEps))))

/-- `DynamicHeatmap.add_gaussian_heat`:
`heatmap = np.maximum(heatmap, (heat * kernel).T)` pointwise. -/
def add_gaussian_heat (cfg : HeatmapCfg) (g : Grid)
    (pan tilt sigma_x sigma_y heat : ℝ) : Grid :=
  fun p t => max (g p t) (heat * make_gaussian_kernel cfg pan tilt sigma_x sigma_y p t)

/-- `DynamicHeatmap.subtract_gaussian_heat`:
`heatmap = heatmap * (1 - heat * kernel).T` pointwise. -/
def subtract_gaussian_heat (cfg : HeatmapCfg) (g : Grid)
    (pan tilt sigma_x sigma_y heat : ℝ) : Grid :=
  fun p t => g p t * (1 - heat * make_gaussian_kernel cfg pan tilt sigma_x sigma_y p t)

/-- A camera pose record `{pan, tilt, zoom}`. -/
structure Pose where
  pan : ℝ
  tilt : ℝ
  zoom : ℝ

/-- `DynamicHeatmap.decay_heatmap`: subtract a Gaussian centred on the camera
pose, with sigma from the pose zoom and `heat = local_decay`. -/
def decay_heatmap (cfg : HeatmapCfg) (g : Grid) (camera_pose : Pose) : Grid :=
  let s := zoom_to_sigma cfg camera_pose.zoom
  subtract_gaussian_heat cfg g camera_pose.pan camera_pose.tilt s.1 s.2 cfg.local_decay

/-- `DynamicHeatmap.get_heatval_at_pan_tilt`: raw grid lookup at the bin of
the given pan/tilt — note the source applies no clamp here. -/
def get_heatval_at_pan_tilt (cfg : HeatmapCfg) (g : Grid) (pan tilt : ℝ) : ℝ :=
  let b := pan_tilt_to_bin cfg pan tilt
  g b.1 b.2

/-- `DynamicHeatmap.get_norm_heatval`: `np.clip(heatmap[p_idx, t_idx], 0, 1)`. -/
def get_norm_heatval (g : Grid) (p_idx t_idx : ℤ) : ℝ :=
  npClipR (g p_idx t_idx) 0 1

/-- `DynamicHeatmap.get_pan_tilt_heat_map`: all cells whose normalised heat is
at least 0.01, keyed by `bin_to_pan_tilt` and valued `np.clip(·, 0, 1)`, in
row-major iteration order. -/
def get_pan_tilt_heat_map (cfg : HeatmapCfg) (g : Grid) : List ((ℝ × ℝ) × ℝ) :=
  (List.range cfg.pan_bins).flatMap fun p =>
    (List.range cfg.tilt_bins).filterMap fun t =>
      if get_norm_heatval g (p : ℤ) (t : ℤ) < 1/100 then none
      else some (bin_to_pan_tilt cfg (p : ℤ) (t : ℤ), npClipR (g (p : ℤ) (t : ℤ)) 0 1)

/-- A bounding box `(x0, y0, x1, y1)` in image pixel coordinates. -/
def BBox : Type := ℝ × ℝ × ℝ × ℝ

/-- Configuration of `BBoxCameraPoseConverter.__init__` (the centre
`cx = img_width / 2`, `cy = img_height / 2` is derived below). -/
structure BBoxCameraPoseConverter where
  img_width : ℝ
  img_height : ℝ
  fx_scale : ℝ
  fy_scale : ℝ

/-- The stored image centre x, `cx = img_width / 2.0`. -/
def BBoxCameraPoseConverter.cx (c : BBoxCameraPoseConverter) : ℝ := c.img_width / 2

/-- The stored image centre y, `cy = img_height / 2.0`. -/
def BBoxCameraPoseConverter.cy (c : BBoxCameraPoseConverter) : ℝ := c.img_height / 2

/-- `np.degrees`: radians to degrees, `r * 180 / pi`. -/
def degrees (r : ℝ) : ℝ := r * 180 / Real.pi

/-- `BBoxCameraPoseConverter.convert` in idealised real arithmetic (total
division).  Follows the source line by line: bbox centre, effective focal
lengths `fx = zoom * fx_scale`, `fy = zoom * fy_scale`, angular offsets
through `arctan`, and the zoom-in / zoom-out scale branch with damping
constant `0.1`. -/
def convert (c : BBoxCameraPoseConverter) (bbox : BBox) (cam_pose : Pose) : Pose :=
  match bbox with
  | (x0, y0, x1, y1) =>
    let x_center := (x0 + x1) / 2
    let y_center := (y0 + y1) / 2
    let fx := cam_pose.zoom * c.fx_scale
    let fy := cam_pose.zoom * c.fy_scale
    let delta_pan := Real.arctan ((x_center - c.cx) / fx)
    let delta_tilt := Real.arctan ((y_center - c.cy) / fy)
    let scale := if x0 < x1 then c.img_width / (x1 - x0) else (x0 - x1) / c.img_width
    { pan := cam_pose.pan + degrees delta_pan,
      tilt := cam_pose.tilt + degrees delta_tilt,
      zoom := cam_pose.zoom * scale * (1/10) }

/-- Python float division, which raises `ZeroDivisionError` on a zero
divisor: `none` models the raised exception. -/
def pyDiv (a b : ℝ) : Option ℝ := if b = 0 then none else some (a / b)

/-- `BBoxCameraPoseConverter.convert` with Python division semantics: each
`/` in the source can raise `ZeroDivisionError`, modelled by `Option`
(failure propagates like an uncaught exception). -/
def convertChecked (c : BBoxCameraPoseConverter) (bbox : BBox) (cam_pose : Pose) :
    Option Pose :=
  match bbox with
  | (x0, y0, x1, y1) =>
    let x_center := (x0 + x1) / 2
    let y_center := (y0 + y1) / 2
    let fx := cam_pose.zoom * c.fx_scale
    let fy := cam_pose.zoom * c.fy_scale
    (pyDiv (x_center - c.cx) fx).bind fun qx =>
      (pyDiv (y_center - c.cy) fy).bind fun qy =>
        (if x0 < x1 then pyDiv c.img_width (x1 - x0)
         else pyDiv (x0 - x1) c.img_width).bind fun scale =>
          some { pan := cam_pose.pan + degrees (Real.arctan qx),
                 tilt := cam_pose.tilt + degrees (Real.arctan qy),
                 zoom := cam_pose.zoom * scale * (1/10) }

/-- A detection event record.  In the source it is a dict
`{bboxes, class_ids, scores, timestamp}`; the `poses` key is absent (here the
empty list) until `add_poses_to_detections` fills it. -/
structure Detection where
  bboxes : List BBox
  class_ids : List ℤ
  scores : List ℝ
  timestamp : ℝ
  poses : List Pose

/-- A pose dict after the collector stamped it with `time.time()`:
`{pan, tilt, zoom, timestamp}`. -/
structure TimedPose where
  pan : ℝ
  tilt : ℝ
  zoom : ℝ
  timestamp : ℝ

/-- Forget the timestamp of a stamped pose (the converter and the heatmap
read only the `pan`/`tilt`/`zoom` keys). -/
def TimedPose.toPose (p : TimedPose) : Pose := ⟨p.pan, p.tilt, p.zoom⟩

/-- `DetectionPositionMatcher.add_poses_to_detections`: sets
`detections["poses"]` to the converted pose of each bbox, in bbox order;
all other keys are untouched. -/
def add_poses_to_detections (c : BBoxCameraPoseConverter) (detections : Detection)
    (cam_pose : Pose) : Detection :=
  { detections with poses := detections.bboxes.map fun b => convert c b cam_pose }

/-- `DynamicHeatmap.update`: for every `zip(poses, scores)` pair, add
Gaussian heat at the pose with sigma from the pose zoom and `heat = score`. -/
def heatmap_update (cfg : HeatmapCfg) (g : Grid) (detections : Detection) : Grid :=
  (detections.poses.zip detections.scores).foldl
    (fun g2 pr =>
      add_gaussian_heat cfg g2 pr.1.pan pr.1.tilt
        (zoom_to_sigma cfg pr.1.zoom).1 (zoom_to_sigma cfg pr.1.zoom).2 pr.2) g

/-- `collections.deque(maxlen=n).append`: append on the right, dropping from
the left when the deque is full. -/
def dequeAppend {α : Type} (maxlen : ℕ) (q : List α) (x : α) : List α :=
  if q.length < maxlen then q ++ [x] else (q.drop (q.length + 1 - maxlen)) ++ [x]

/-- Matcher timing configuration, already converted to seconds by
`DetectionPositionMatcher.__init__` (`min_dt = min_dt_ms / 1000`,
`frame_to_pose_latency = frame_to_pose_latency_ms / 1000`). -/
structure MatcherCfg where
  min_dt : ℝ
  frame_to_pose_latency : ℝ

/-- The mutable state of a `DetectionPositionMatcher` touched by one matcher
iteration: the two input deques (of maxlen 1000; oldest first), the output
match deque (maxlen 100) and the heatmap grid. -/
structure MatcherState where
  detQueue : List Detection
  poseQueue : List TimedPose
  matchQueue : List Detection
  grid : Grid

/-- One iteration of the `DetectionPositionMatcher.match_detection_and_pose`
loop body.  With an empty queue the iteration only sleeps (state unchanged);
otherwise it peeks the oldest element of each queue, computes
`dt = pose["timestamp"] - detection["timestamp"] - frame_to_pose_latency`,
and either matches (pop both, attach poses, update heatmap, append to the
match deque), drops the oldest pose (`dt < -min_dt`), or drops the oldest
detection. -/
def match_step (hm : HeatmapCfg) (c : BBoxCameraPoseConverter) (mc : MatcherCfg)
    (s : MatcherState) : MatcherState :=
  match s.detQueue, s.poseQueue with
  | [], _ => s
  | _ :: _, [] => s
  | d :: ds, p :: ps =>
    let dt := p.timestamp - d.timestamp - mc.frame_to_pose_latency
    if |dt| ≤ mc.min_dt then
      let d2 := add_poses_to_detections c d p.toPose
      { detQueue := ds, poseQueue := ps,
        matchQueue := dequeAppend 100 s.matchQueue d2,
        grid := heatmap_update hm s.grid d2 }
    else if dt < -mc.min_dt then
      { s with poseQueue := ps }
    else
      { s with detQueue := ds }

/-- Errors a Python loop body can die of. -/
inductive PyErr
  | keyError
  | uncaughtException
deriving DecidableEq

/-- The possible outcomes of one `camera.get_status()` call as seen by
`collect_camera_poses`: the call raises (its tenacity retry re-raises after
three failed attempts), returns a falsy/empty pose dict, or returns a full
pose. -/
inductive PollResult
  | failure
  | emptyPose
  | ok (p : Pose)

/-- One iteration of the `DetectionPositionMatcher.collect_camera_poses`
loop body, faithful to statement order.  A raising `get_status` propagates
out of the loop (there is no try/except around the body).  On a returned
pose the code calls `heat_map.decay_heatmap(pose)` BEFORE the `if not pose`
emptiness guard, so an empty pose dict raises `KeyError` inside
`decay_heatmap` (`camera_pose["zoom"]`).  On a non-empty pose it decays the
heatmap, stamps the pose with the current time and appends it to the pose
deque (maxlen 1000). -/
def collect_camera_poses_step (hm : HeatmapCfg) (g : Grid) (q : List TimedPose)
    (now : ℝ) (r : PollResult) : Except PyErr (Grid × List TimedPose) :=
  match r with
  | .failure => .error .uncaughtException
  | .emptyPose => .error .keyError
  | .ok p => .ok (decay_heatmap hm g p, dequeAppend 1000 q ⟨p.pan, p.tilt, p.zoom, now⟩)

/-- The grid whose every cell holds 1. -/
def oneGrid : Grid := fun _ _ => 1

/-- A one-cell heatmap configuration used to exercise the heat-map reads on
a concrete input. -/
def tinyHeatmap : HeatmapCfg := ⟨1, 1, 1/1000, 1/10, 1, 300, 3, 15⟩

/-- A concrete converter: 1920×1080 frame with the default intrinsic scales
`fx_scale=175`, `fy_scale=13`. -/
def testConverter : BBoxCameraPoseConverter := ⟨1920, 1080, 175, 13⟩

/-- A concrete detection: one bbox, one class, one score, timestamp 100. -/
def testDetection : Detection := ⟨[((0:ℝ), (0:ℝ), (10:ℝ), (10:ℝ))], [0], [9/10], 100, []⟩

/-- A stamped pose 0.1 s after the test detection: matches it under
`min_dt = 0.5`. -/
def poseMatch : TimedPose := ⟨10, 5, 50, 1001/10⟩

/-- A stamped pose far older than the test detection: gets discarded. -/
def poseOld : TimedPose := ⟨10, 5, 50, 0⟩

/-- A stamped pose far newer than the test detection: the detection gets
discarded. -/
def poseNew : TimedPose := ⟨10, 5, 50, 200⟩

/-- Matcher timing: `min_dt = 0.5 s`, zero latency compensation. -/
def testMatcherCfg : MatcherCfg := ⟨1/2, 0⟩

/-- Matcher state holding the test detection and the matching pose. -/
def stateMatch : MatcherState := ⟨[testDetection], [poseMatch], [], zeroGrid⟩

/-- Matcher state holding the test detection and the stale pose. -/
def stateOldPose : MatcherState := ⟨[testDetection], [poseOld], [], zeroGrid⟩

/-- Matcher state holding the test detection and the too-new pose. -/
def stateNewPose : MatcherState := ⟨[testDetection], [poseNew], [], zeroGrid⟩

/-- A concrete pose with zoom 0 (degenerate focal length). -/
def poseZeroZoom : Pose := ⟨10, 5, 0⟩

/-- A concrete pose with nonzero zoom. -/
def poseZoom50 : Pose := ⟨10, 5, 50⟩

/-- Every Gaussian kernel cell is strictly positive. -/
theorem make_gaussian_kernel_pos (cfg : HeatmapCfg) (pan tilt sigma_x sigma_y : ℝ)
    (p t : ℤ) : 0 < make_gaussian_kernel cfg pan tilt sigma_x sigma_y p t :=
  Real.exp_pos _

/-- Every Gaussian kernel cell is at most 1: the exponent is nonpositive. -/
theorem make_gaussian_kernel_le_one (cfg : HeatmapCfg) (pan tilt sigma_x sigma_y : ℝ)
    (p t : ℤ) : make_gaussian_kernel cfg pan tilt sigma_x sigma_y p t ≤ 1 := by
  unfold make_gaussian_kernel kernelEps
  refine le_trans (Real.exp_le_exp.mpr ?_) (le_of_eq Real.exp_zero)
  have h1 : (0:ℝ) ≤ ((p : ℝ) - ((pan_tilt_to_bin cfg pan tilt).1 : ℝ)) ^ 2 /
      (2 * (sigma_x ^ 2 + 1 / 10 ^ 10)) := by positivity
  have h2 : (0:ℝ) ≤ ((t : ℝ) - ((pan_tilt_to_bin cfg pan tilt).2 : ℝ)) ^ 2 /
      (2 * (sigma_y ^ 2 + 1 / 10 ^ 10)) := by positivity
  linarith

/-- Claim C5: starting from a grid whose cells are all non-negative,
`decay_heatmap` (which subtracts a Gaussian with `heat = local_decay`, where
`local_decay` lies in `(0,1)`) leaves every cell non-negative. -/
theorem decay_heatmap_nonneg (cfg : HeatmapCfg) (g : Grid) (pose : Pose)
    (h1 : 0 < cfg.local_decay) (h2 : cfg.local_decay < 1)
    (hg : ∀ p t : ℤ, 0 ≤ g p t) :
    ∀ p t : ℤ, 0 ≤ decay_heatmap cfg g pose p t := by
  intro p t
  unfold decay_heatmap subtract_gaussian_heat
  have hk1 := make_gaussian_kernel_pos cfg pose.pan pose.tilt
    (zoom_to_sigma cfg pose.zoom).1 (zoom_to_sigma cfg pose.zoom).2 p t
  have hk2 := make_gaussian_kernel_le_one cfg pose.pan pose.tilt
    (zoom_to_sigma cfg pose.zoom).1 (zoom_to_sigma cfg pose.zoom).2 p t
  have hfac : 0 ≤ 1 - cfg.local_decay *
      make_gaussian_kernel cfg pose.pan pose.tilt
        (zoom_to_sigma cfg pose.zoom).1 (zoom_to_sigma cfg pose.zoom).2 p t := by
    nlinarith
  exact mul_nonneg (hg p t) hfac

/-- Witness for C5 at the default configuration, the zero grid and a
concrete pose. -/
theorem decay_heatmap_nonneg_witness :
    0 ≤ decay_heatmap defaultHeatmap zeroGrid poseZoom50 0 0 :=
  decay_heatmap_nonneg defaultHeatmap zeroGrid poseZoom50
    (by norm_num [defaultHeatmap]) (by norm_num [defaultHeatmap])
    (fun _ _ => le_refl 0) 0 0

/-- Claim C6: `add_gaussian_heat` sets every grid cell to the maximum of its
current value and `heat` times the Gaussian kernel value at that cell, hence
never decreases any cell, and applying it twice with identical arguments
yields the same grid as applying it once. -/
theorem add_gaussian_heat_spec (cfg : HeatmapCfg) (g : Grid)
    (pan tilt sigma_x sigma_y heat : ℝ) (p t : ℤ) :
    add_gaussian_heat cfg g pan tilt sigma_x sigma_y heat p t
        = max (g p t) (heat * make_gaussian_kernel cfg pan tilt sigma_x sigma_y p t)
      ∧ g p t ≤ add_gaussian_heat cfg g pan tilt sigma_x sigma_y heat p t
      ∧ add_gaussian_heat cfg (add_gaussian_heat cfg g pan tilt sigma_x sigma_y heat)
          pan tilt sigma_x sigma_y heat p t
          = add_gaussian_heat cfg g pan tilt sigma_x sigma_y heat p t := by
  refine ⟨rfl, le_max_left _ _, ?_⟩
  show max (max _ _) _ = max _ _
  rw [max_assoc, max_self]

/-- Claim C7: `convert` is a pure function computing
`pan + degrees(atan((xc - cx) / (zoom * fx_scale)))`,
`tilt + degrees(atan((yc - cy) / (zoom * fy_scale)))` from the bbox centre
`(xc, yc)` and image centre `(width/2, height/2)`, and the new zoom
`zoom * scale * k` with `scale = img_width / (x1 - x0)` for a normal box and
`(x0 - x1) / img_width` for a reversed one, with damping constant `k = 1/10`. -/
theorem convert_formula (c : BBoxCameraPoseConverter) (x0 y0 x1 y1 : ℝ) (cam : Pose) :
    convert c (x0, y0, x1, y1) cam =
      { pan := cam.pan +
          Real.arctan (((x0 + x1) / 2 - c.img_width / 2) / (cam.zoom * c.fx_scale))
            * 180 / Real.pi,
        tilt := cam.tilt +
          Real.arctan (((y0 + y1) / 2 - c.img_height / 2) / (cam.zoom * c.fy_scale))
            * 180 / Real.pi,
        zoom := cam.zoom *
          (if x0 < x1 then c.img_width / (x1 - x0) else (x0 - x1) / c.img_width)
            * (1/10) } := by
  simp only [convert, degrees, BBoxCameraPoseConverter.cx, BBoxCameraPoseConverter.cy]

/-- Claim C8: attaching poses sets the `poses` field to the converted pose of
each bbox — same length as `bboxes`, positionally aligned — and leaves the
`bboxes`, `class_ids`, `scores` and `timestamp` fields unchanged. -/
theorem add_poses_to_detections_spec (c : BBoxCameraPoseConverter)
    (d : Detection) (cam : Pose) :
    (add_poses_to_detections c d cam).poses = d.bboxes.map (fun b => convert c b cam)
    ∧ (add_poses_to_detections c d cam).poses.length = d.bboxes.length
    ∧ (∀ i : ℕ, (add_poses_to_detections c d cam).poses[i]?
        = (d.bboxes[i]?).map (fun b => convert c b cam))
    ∧ (add_poses_to_detections c d cam).bboxes = d.bboxes
    ∧ (add_poses_to_detections c d cam).class_ids = d.class_ids
    ∧ (add_poses_to_detections c d cam).scores = d.scores
    ∧ (add_poses_to_detections c d cam).timestamp = d.timestamp := by
  refine ⟨rfl, by simp [add_poses_to_detections], fun i => ?_, rfl, rfl, rfl, rfl⟩
  simp [add_poses_to_detections]

/-- Claim C9: with `cam_pose.zoom = 0` the effective focal lengths are zero
and the angular-offset computation divides by zero, so `convert` under Python
division semantics fails rather than returning a result; with nonzero zoom
(and the fixed nonzero calibration constants) it succeeds and agrees with the
idealised `convert`. -/
theorem convert_zero_zoom (c : BBoxCameraPoseConverter) (x0 y0 x1 y1 : ℝ) (cam : Pose) :
    (cam.zoom = 0 → convertChecked c (x0, y0, x1, y1) cam = none)
    ∧ (cam.zoom ≠ 0 → c.fx_scale ≠ 0 → c.fy_scale ≠ 0 → c.img_width ≠ 0 →
        convertChecked c (x0, y0, x1, y1) cam
          = some (convert c (x0, y0, x1, y1) cam)) := by
  constructor
  · intro h0
    simp [convertChecked, pyDiv, h0]
  · intro hz hfx hfy hw
    simp only [convertChecked, convert, pyDiv]
    rw [if_neg (mul_ne_zero hz hfx), if_neg (mul_ne_zero hz hfy)]
    by_cases hlt : x0 < x1
    · rw [if_pos hlt, if_pos hlt, if_neg (sub_ne_zero.mpr (ne_of_gt hlt))]
      rfl
    · rw [if_neg hlt, if_neg hlt, if_neg hw]
      rfl

/-- Witness for C9: a concrete converter and bbox, failing at zoom 0 and
succeeding at zoom 50. -/
theorem convert_zero_zoom_witness :
    convertChecked testConverter ((0:ℝ), (0:ℝ), (10:ℝ), (10:ℝ)) poseZeroZoom = none
    ∧ convertChecked testConverter ((0:ℝ), (0:ℝ), (10:ℝ), (10:ℝ)) poseZoom50
        = some (convert testConverter ((0:ℝ), (0:ℝ), (10:ℝ), (10:ℝ)) poseZoom50) :=
  ⟨(convert_zero_zoom testConverter 0 0 10 10 poseZeroZoom).1 rfl,
   (convert_zero_zoom testConverter 0 0 10 10 poseZoom50).2
     (by norm_num [poseZoom50]) (by norm_num [testConverter])
     (by norm_num [testConverter]) (by norm_num [testConverter])⟩

/-- Claim C10: for the camera-view sigma computation, `zoom_to_sigma` returns
non-negative sigmas for every non-negative zoom, both non-increasing in zoom,
and saturates to exactly `(0, 0)` once `zoom ≥ 0.99 * max_zoom`. -/
theorem zoom_to_sigma_spec (cfg : HeatmapCfg) (z w : ℝ)
    (hmz : 0 < cfg.max_zoom) (hps : 0 ≤ cfg.pan_sigma_scale)
    (hts : 0 ≤ cfg.tilt_sigma_scale) :
    (0 ≤ z → 0 ≤ (zoom_to_sigma cfg z).1 ∧ 0 ≤ (zoom_to_sigma cfg z).2)
    ∧ (0 ≤ z → z ≤ w →
        (zoom_to_sigma cfg w).1 ≤ (zoom_to_sigma cfg z).1
        ∧ (zoom_to_sigma cfg w).2 ≤ (zoom_to_sigma cfg z).2)
    ∧ (99/100 * cfg.max_zoom ≤ z → zoom_to_sigma cfg z = (0, 0)) := by
  have hclip_le_one : ∀ v : ℝ, npClipR v 0 1 ≤ 1 := fun v =>
    max_le zero_le_one (min_le_right _ _)
  have hscale_nonneg : ∀ v : ℝ, 0 ≤ 1 - npClipR v 0 1 := fun v => by
    have := hclip_le_one v
    linarith
  refine ⟨fun _ => ?_, fun _ hzw => ?_, fun hsat => ?_⟩
  · exact ⟨mul_nonneg (hscale_nonneg _) hps, mul_nonneg (hscale_nonneg _) hts⟩
  · have hmono : npClipR (1/100 + z / cfg.max_zoom) 0 1
        ≤ npClipR (1/100 + w / cfg.max_zoom) 0 1 := by
      apply max_le_max (le_refl 0)
      apply min_le_min _ (le_refl 1)
      have := (div_le_div_iff_of_pos_right hmz).mpr hzw
      linarith
    constructor
    · show (1 - npClipR (1/100 + w / cfg.max_zoom) 0 1) * cfg.pan_sigma_scale
          ≤ (1 - npClipR (1/100 + z / cfg.max_zoom) 0 1) * cfg.pan_sigma_scale
      exact mul_le_mul_of_nonneg_right (by linarith) hps
    · show (1 - npClipR (1/100 + w / cfg.max_zoom) 0 1) * cfg.tilt_sigma_scale
          ≤ (1 - npClipR (1/100 + z / cfg.max_zoom) 0 1) * cfg.tilt_sigma_scale
      exact mul_le_mul_of_nonneg_right (by linarith) hts
  · have hone : (1:ℝ) ≤ 1/100 + z / cfg.max_zoom := by
      have : (99/100 : ℝ) ≤ z / cfg.max_zoom := (le_div_iff₀ hmz).mpr (by linarith)
      linarith
    have hclip : npClipR (1/100 + z / cfg.max_zoom) 0 1 = 1 := by
      unfold npClipR
      rw [min_eq_right hone, max_eq_right zero_le_one]
    simp only [zoom_to_sigma, hclip]
    norm_num

/-- Witness for C10 at the default configuration with zooms 297 and 300
(`0.99 * 300 = 297`). -/
theorem zoom_to_sigma_witness :
    (0 ≤ (zoom_to_sigma defaultHeatmap 297).1 ∧ 0 ≤ (zoom_to_sigma defaultHeatmap 297).2)
    ∧ ((zoom_to_sigma defaultHeatmap 300).1 ≤ (zoom_to_sigma defaultHeatmap 297).1
        ∧ (zoom_to_sigma defaultHeatmap 300).2 ≤ (zoom_to_sigma defaultHeatmap 297).2)
    ∧ zoom_to_sigma defaultHeatmap 297 = (0, 0) := by
  have h := zoom_to_sigma_spec defaultHeatmap 297 300
    (by norm_num [defaultHeatmap]) (by norm_num [defaultHeatmap])
    (by norm_num [defaultHeatmap])
  exact ⟨h.1 (by norm_num), h.2.1 (by norm_num) (by norm_num),
    h.2.2 (by norm_num [defaultHeatmap])⟩

/-- Claim C3: what one iteration of the pose-collector loop body actually
does at each poll outcome: a raising poll propagates out of the loop
(terminating it), an empty pose reaches `decay_heatmap` before the emptiness
guard and dies of `KeyError`, and only a successful non-empty poll decays the
heatmap and then stamps and enqueues the pose. -/
theorem collect_camera_poses_eval (hm : HeatmapCfg) (g : Grid)
    (q : List TimedPose) (now : ℝ) :
    collect_camera_poses_step hm g q now .emptyPose = .error .keyError
    ∧ collect_camera_poses_step hm g q now .failure = .error .uncaughtException
    ∧ ∀ p : Pose, collect_camera_poses_step hm g q now (.ok p)
        = .ok (decay_heatmap hm g p, dequeAppend 1000 q ⟨p.pan, p.tilt, p.zoom, now⟩) :=
  ⟨rfl, rfl, fun _ => rfl⟩

/-- The integer clip onto `[0, n-1]` always lands inside `[0, n)`. -/
theorem npClipI_range (x n : ℤ) (hn : 1 ≤ n) :
    0 ≤ npClipI x 0 (n - 1) ∧ npClipI x 0 (n - 1) < n := by
  unfold npClipI
  exact ⟨le_max_left _ _,
    lt_of_le_of_lt (max_le (by omega) (min_le_right _ _)) (by omega)⟩

/-- Truncating a value of `[0, n]` toward zero and clipping onto `[0, n-1]`
lands inside `[0, n)`, below the value, and within distance 1 of it. -/
theorem floor_clip_close (v : ℝ) (n : ℤ) (hn : 1 ≤ n) (h0 : 0 ≤ v)
    (h2 : v ≤ (n : ℝ)) :
    0 ≤ npClipI (pyInt v) 0 (n - 1) ∧ npClipI (pyInt v) 0 (n - 1) < n
    ∧ ((npClipI (pyInt v) 0 (n - 1) : ℤ) : ℝ) ≤ v
    ∧ v - ((npClipI (pyInt v) 0 (n - 1) : ℤ) : ℝ) ≤ 1 := by
  have hpy : pyInt v = ⌊v⌋ := if_neg (not_lt.mpr h0)
  have hk0 : 0 ≤ ⌊v⌋ := Int.floor_nonneg.mpr h0
  have hkn : ⌊v⌋ ≤ n := by
    have h := Int.floor_le_floor h2
    rwa [Int.floor_intCast] at h
  have hclip : npClipI (pyInt v) 0 (n - 1) = min ⌊v⌋ (n - 1) := by
    unfold npClipI
    rw [hpy, max_eq_right (le_min hk0 (by omega))]
  rw [hclip]
  refine ⟨le_min hk0 (by omega),
    lt_of_le_of_lt (min_le_right _ _) (by omega), ?_, ?_⟩
  · have hmin : (min ⌊v⌋ (n - 1) : ℤ) ≤ ⌊v⌋ := min_le_left _ _
    have hcast : ((min ⌊v⌋ (n - 1) : ℤ) : ℝ) ≤ ((⌊v⌋ : ℤ) : ℝ) := by exact_mod_cast hmin
    exact le_trans hcast (Int.floor_le v)
  · rcases le_total ⌊v⌋ (n - 1) with h | h
    · rw [min_eq_left h]
      have := Int.lt_floor_add_one v
      push_cast at this
      linarith
    · rw [min_eq_right h]
      push_cast
      linarith

/-- Claim C4: composing `pan_tilt_to_bin` with `bin_to_pan_tilt` recovers a
pan within `360/pan_bins` degrees and a tilt within `180/tilt_bins` degrees
for every `pan ∈ [0,360)` and `tilt ∈ [-90,90]`; and for every real pan and
tilt (including `tilt = ±90` and the 0/360 wraparound) the bin indices lie
inside `[0, pan_bins) × [0, tilt_bins)`. -/
theorem bin_roundtrip (cfg : HeatmapCfg) (pan tilt : ℝ)
    (hP : 1 ≤ cfg.pan_bins) (hT : 1 ≤ cfg.tilt_bins) :
    ((0 ≤ pan → pan < 360 → -90 ≤ tilt → tilt ≤ 90 →
      |(bin_to_pan_tilt cfg (pan_tilt_to_bin cfg pan tilt).1
          (pan_tilt_to_bin cfg pan tilt).2).1 - pan| ≤ 360 / (cfg.pan_bins : ℝ)
      ∧ |(bin_to_pan_tilt cfg (pan_tilt_to_bin cfg pan tilt).1
          (pan_tilt_to_bin cfg pan tilt).2).2 - tilt| ≤ 180 / (cfg.tilt_bins : ℝ)))
    ∧ (0 ≤ (pan_tilt_to_bin cfg pan tilt).1
       ∧ (pan_tilt_to_bin cfg pan tilt).1 < (cfg.pan_bins : ℤ)
       ∧ 0 ≤ (pan_tilt_to_bin cfg pan tilt).2
       ∧ (pan_tilt_to_bin cfg pan tilt).2 < (cfg.tilt_bins : ℤ)) := by
  have hPZ : (1:ℤ) ≤ (cfg.pan_bins : ℤ) := by exact_mod_cast hP
  have hTZ : (1:ℤ) ≤ (cfg.tilt_bins : ℤ) := by exact_mod_cast hT
  have hPR : (0:ℝ) < (cfg.pan_bins : ℝ) := by
    have : 0 < cfg.pan_bins := hP
    exact_mod_cast this
  have hTR : (0:ℝ) < (cfg.tilt_bins : ℝ) := by
    have : 0 < cfg.tilt_bins := hT
    exact_mod_cast this
  constructor
  · intro h0 h1 h2 h3
    have hfl : ⌊pan / 360⌋ = 0 := by
      rw [Int.floor_eq_zero_iff, Set.mem_Ico]
      exact ⟨div_nonneg h0 (by norm_num), (div_lt_one (by norm_num)).mpr h1⟩
    have hmod : pymod pan 360 = pan := by
      unfold pymod
      rw [hfl]
      norm_num
    have hv0 : 0 ≤ pan / 360 * (cfg.pan_bins : ℝ) :=
      mul_nonneg (div_nonneg h0 (by norm_num)) (le_of_lt hPR)
    have hv2 : pan / 360 * (cfg.pan_bins : ℝ) ≤ (((cfg.pan_bins : ℤ)) : ℝ) := by
      push_cast
      calc pan / 360 * (cfg.pan_bins : ℝ) ≤ 1 * (cfg.pan_bins : ℝ) :=
            mul_le_mul_of_nonneg_right
              (le_of_lt ((div_lt_one (by norm_num)).mpr h1)) (le_of_lt hPR)
        _ = (cfg.pan_bins : ℝ) := one_mul _
    have hw0 : 0 ≤ (tilt + 90) / 180 * (cfg.tilt_bins : ℝ) :=
      mul_nonneg (div_nonneg (by linarith) (by norm_num)) (le_of_lt hTR)
    have hw2 : (tilt + 90) / 180 * (cfg.tilt_bins : ℝ) ≤ (((cfg.tilt_bins : ℤ)) : ℝ) := by
      push_cast
      calc (tilt + 90) / 180 * (cfg.tilt_bins : ℝ) ≤ 1 * (cfg.tilt_bins : ℝ) :=
            mul_le_mul_of_nonneg_right
              ((div_le_one (by norm_num)).mpr (by linarith)) (le_of_lt hTR)
        _ = (cfg.tilt_bins : ℝ) := one_mul _
    obtain ⟨hp0, hpN, hple, hpd⟩ := floor_clip_close (pan / 360 * (cfg.pan_bins : ℝ))
      (cfg.pan_bins : ℤ) hPZ hv0 hv2
    obtain ⟨ht0, htM, htle, htd⟩ :=
      floor_clip_close ((tilt + 90) / 180 * (cfg.tilt_bins : ℝ))
        (cfg.tilt_bins : ℤ) hTZ hw0 hw2
    simp only [pan_tilt_to_bin, bin_to_pan_tilt, hmod]
    constructor
    · have key1 : ((npClipI (pyInt (pan / 360 * (cfg.pan_bins : ℝ))) 0
            ((cfg.pan_bins : ℤ) - 1) : ℤ) : ℝ) / (cfg.pan_bins : ℝ) * 360 - pan
          = (((npClipI (pyInt (pan / 360 * (cfg.pan_bins : ℝ))) 0
            ((cfg.pan_bins : ℤ) - 1) : ℤ) : ℝ) - pan / 360 * (cfg.pan_bins : ℝ))
              * (360 / (cfg.pan_bins : ℝ)) := by
        field_simp
        ring
      rw [key1, abs_mul, abs_of_pos (div_pos (by norm_num) hPR)]
      have habs1 : |((npClipI (pyInt (pan / 360 * (cfg.pan_bins : ℝ))) 0
          ((cfg.pan_bins : ℤ) - 1) : ℤ) : ℝ) - pan / 360 * (cfg.pan_bins : ℝ)| ≤ 1 :=
        abs_le.mpr ⟨by linarith, by linarith⟩
      calc |((npClipI (pyInt (pan / 360 * (cfg.pan_bins : ℝ))) 0
            ((cfg.pan_bins : ℤ) - 1) : ℤ) : ℝ) - pan / 360 * (cfg.pan_bins : ℝ)|
            * (360 / (cfg.pan_bins : ℝ))
          ≤ 1 * (360 / (cfg.pan_bins : ℝ)) :=
            mul_le_mul_of_nonneg_right habs1 (by positivity)
        _ = 360 / (cfg.pan_bins : ℝ) := one_mul _
    · have key2 : ((npClipI (pyInt ((tilt + 90) / 180 * (cfg.tilt_bins : ℝ))) 0
            ((cfg.tilt_bins : ℤ) - 1) : ℤ) : ℝ) / (cfg.tilt_bins : ℝ) * 180 - 90 - tilt
          = (((npClipI (pyInt ((tilt + 90) / 180 * (cfg.tilt_bins : ℝ))) 0
            ((cfg.tilt_bins : ℤ) - 1) : ℤ) : ℝ) - (tilt + 90) / 180 * (cfg.tilt_bins : ℝ))
              * (180 / (cfg.tilt_bins : ℝ)) := by
        field_simp
        ring
      rw [key2, abs_mul, abs_of_pos (div_pos (by norm_num) hTR)]
      have habs2 : |((npClipI (pyInt ((tilt + 90) / 180 * (cfg.tilt_bins : ℝ))) 0
          ((cfg.tilt_bins : ℤ) - 1) : ℤ) : ℝ)
            - (tilt + 90) / 180 * (cfg.tilt_bins : ℝ)| ≤ 1 :=
        abs_le.mpr ⟨by linarith, by linarith⟩
      calc |((npClipI (pyInt ((tilt + 90) / 180 * (cfg.tilt_bins : ℝ))) 0
            ((cfg.tilt_bins : ℤ) - 1) : ℤ) : ℝ)
            - (tilt + 90) / 180 * (cfg.tilt_bins : ℝ)| * (180 / (cfg.tilt_bins : ℝ))
          ≤ 1 * (180 / (cfg.tilt_bins : ℝ)) :=
            mul_le_mul_of_nonneg_right habs2 (by positivity)
        _ = 180 / (cfg.tilt_bins : ℝ) := one_mul _
  · simp only [pan_tilt_to_bin]
    obtain ⟨hbp1, hbp2⟩ := npClipI_range
      (pyInt (pymod pan 360 / 360 * (cfg.pan_bins : ℝ))) (cfg.pan_bins : ℤ) hPZ
    obtain ⟨hbt1, hbt2⟩ := npClipI_range
      (pyInt ((tilt + 90) / 180 * (cfg.tilt_bins : ℝ))) (cfg.tilt_bins : ℤ) hTZ
    exact ⟨hbp1, hbp2, hbt1, hbt2⟩

/-- Witness for C4 at the default 360×100 configuration, pan 123.4 and
tilt 45. -/
theorem bin_roundtrip_witness :
    (|(bin_to_pan_tilt defaultHeatmap (pan_tilt_to_bin defaultHeatmap (617/5) 45).1
        (pan_tilt_to_bin defaultHeatmap (617/5) 45).2).1 - 617/5|
        ≤ 360 / (defaultHeatmap.pan_bins : ℝ)
      ∧ |(bin_to_pan_tilt defaultHeatmap (pan_tilt_to_bin defaultHeatmap (617/5) 45).1
        (pan_tilt_to_bin defaultHeatmap (617/5) 45).2).2 - 45|
        ≤ 180 / (defaultHeatmap.tilt_bins : ℝ))
    ∧ (0 ≤ (pan_tilt_to_bin defaultHeatmap (617/5) 45).1
       ∧ (pan_tilt_to_bin defaultHeatmap (617/5) 45).1 < (defaultHeatmap.pan_bins : ℤ)
       ∧ 0 ≤ (pan_tilt_to_bin defaultHeatmap (617/5) 45).2
       ∧ (pan_tilt_to_bin defaultHeatmap (617/5) 45).2 < (defaultHeatmap.tilt_bins : ℤ)) := by
  have h := bin_roundtrip defaultHeatmap (617/5) 45
    (by norm_num [defaultHeatmap]) (by norm_num [defaultHeatmap])
  exact ⟨h.1 (by norm_num) (by norm_num) (by norm_num) (by norm_num), h.2⟩

/-- Claim C2 (amended): the heat reads that clamp — `get_norm_heatval` and
every value of `get_pan_tilt_heat_map` — always return values in `[0,1]`,
for every grid, however the grid was accumulated. -/
theorem heat_reads_clamped (cfg : HeatmapCfg) (g : Grid) (p t : ℤ) :
    (0 ≤ get_norm_heatval g p t ∧ get_norm_heatval g p t ≤ 1)
    ∧ ∀ e ∈ get_pan_tilt_heat_map cfg g, 0 ≤ e.2 ∧ e.2 ≤ 1 := by
  constructor
  · exact ⟨le_max_left _ _, max_le zero_le_one (min_le_right _ _)⟩
  · intro e he
    rw [get_pan_tilt_heat_map, List.mem_flatMap] at he
    obtain ⟨a, _, hfa⟩ := he
    rw [List.mem_filterMap] at hfa
    obtain ⟨b, _, hb⟩ := hfa
    split at hb
    · exact absurd hb (by simp)
    · rw [Option.some_inj] at hb
      rw [← hb]
      exact ⟨le_max_left _ _, max_le zero_le_one (min_le_right _ _)⟩

/-- Witness for C2 (amended) on a one-cell heatmap whose single cell holds 1:
the norm read and the single map entry are both inside `[0,1]`. -/
theorem heat_reads_clamped_witness :
    (0 ≤ get_norm_heatval oneGrid 0 0 ∧ get_norm_heatval oneGrid 0 0 ≤ 1)
    ∧ (0 ≤ (bin_to_pan_tilt tinyHeatmap 0 0, npClipR (oneGrid 0 0) 0 1).2
        ∧ (bin_to_pan_tilt tinyHeatmap 0 0, npClipR (oneGrid 0 0) 0 1).2 ≤ 1) := by
  have h := heat_reads_clamped tinyHeatmap oneGrid 0 0
  refine ⟨h.1, h.2 (bin_to_pan_tilt tinyHeatmap 0 0, npClipR (oneGrid 0 0) 0 1) ?_⟩
  rw [get_pan_tilt_heat_map, List.mem_flatMap]
  refine ⟨0, by simp [tinyHeatmap], ?_⟩
  rw [List.mem_filterMap]
  refine ⟨0, by simp [tinyHeatmap], ?_⟩
  norm_num [get_norm_heatval, oneGrid, npClipR]

/-- Counterexample to claim C2 as stated: `get_heatval_at_pan_tilt` performs
no clamp, so after adding Gaussian heat 2 at pan 0 / tilt 0 the read at that
spot returns 2, outside `[0,1]`. -/
theorem heatval_read_exceeds_one :
    1 < get_heatval_at_pan_tilt defaultHeatmap
        (add_gaussian_heat defaultHeatmap zeroGrid 0 0 1 1 2) 0 0 := by
  have hbin : pan_tilt_to_bin defaultHeatmap 0 0 = (0, 50) := by
    unfold pan_tilt_to_bin pyInt pymod npClipI defaultHeatmap
    norm_num
  unfold get_heatval_at_pan_tilt add_gaussian_heat make_gaussian_kernel zeroGrid
  rw [hbin]
  norm_num [Real.exp_zero]

/-- Claim C1: one iteration of the matcher loop with both queues non-empty
computes `dt` from the oldest elements only and performs exactly one of the
three actions: match (pop both, attach one converted pose per bbox, update
the heatmap, append to the match queue), drop the oldest pose when
`dt < -min_dt`, or drop the oldest detection otherwise. -/
theorem match_step_cases (hm : HeatmapCfg) (c : BBoxCameraPoseConverter)
    (mc : MatcherCfg) (s : MatcherState) (d : Detection) (ds : List Detection)
    (p : TimedPose) (ps : List TimedPose)
    (hdq : s.detQueue = d :: ds) (hpq : s.poseQueue = p :: ps) :
    (|p.timestamp - d.timestamp - mc.frame_to_pose_latency| ≤ mc.min_dt →
      match_step hm c mc s =
        { detQueue := ds, poseQueue := ps,
          matchQueue := dequeAppend 100 s.matchQueue
            (add_poses_to_detections c d p.toPose),
          grid := heatmap_update hm s.grid (add_poses_to_detections c d p.toPose) })
    ∧ (¬ |p.timestamp - d.timestamp - mc.frame_to_pose_latency| ≤ mc.min_dt →
        p.timestamp - d.timestamp - mc.frame_to_pose_latency < -mc.min_dt →
      match_step hm c mc s = { s with poseQueue := ps })
    ∧ (¬ |p.timestamp - d.timestamp - mc.frame_to_pose_latency| ≤ mc.min_dt →
        ¬ p.timestamp - d.timestamp - mc.frame_to_pose_latency < -mc.min_dt →
      match_step hm c mc s = { s with detQueue := ds }) := by
  obtain ⟨dq, pq, mq, g⟩ := s
  simp only at hdq hpq
  subst hdq
  subst hpq
  refine ⟨fun h1 => ?_, fun h1 h2 => ?_, fun h1 h2 => ?_⟩
  · simp only [match_step, if_pos h1]
  · simp only [match_step, if_neg h1, if_pos h2]
  · simp only [match_step, if_neg h1, if_neg h2]

/-- Witness for C1: the three branches exercised on concrete states — a
matching pose (dt = 0.1 within min_dt = 0.5), a stale pose (dt = -100) and a
too-new pose (dt = 100). -/
theorem match_step_witness :
    match_step defaultHeatmap testConverter testMatcherCfg stateMatch =
      { detQueue := [], poseQueue := [],
        matchQueue := dequeAppend 100 []
          (add_poses_to_detections testConverter testDetection poseMatch.toPose),
        grid := heatmap_update defaultHeatmap zeroGrid
          (add_poses_to_detections testConverter testDetection poseMatch.toPose) }
    ∧ match_step defaultHeatmap testConverter testMatcherCfg stateOldPose
        = { stateOldPose with poseQueue := [] }
    ∧ match_step defaultHeatmap testConverter testMatcherCfg stateNewPose
        = { stateNewPose with detQueue := [] } := by
  have hA := match_step_cases defaultHeatmap testConverter testMatcherCfg
    stateMatch testDetection [] poseMatch [] rfl rfl
  have hB := match_step_cases defaultHeatmap testConverter testMatcherCfg
    stateOldPose testDetection [] poseOld [] rfl rfl
  have hC := match_step_cases defaultHeatmap testConverter testMatcherCfg
    stateNewPose testDetection [] poseNew [] rfl rfl
  have dtA : poseMatch.timestamp - testDetection.timestamp
      - testMatcherCfg.frame_to_pose_latency = 1/10 := by
    norm_num [poseMatch, testDetection, testMatcherCfg]
  have dtB : poseOld.timestamp - testDetection.timestamp
      - testMatcherCfg.frame_to_pose_latency = -100 := by
    norm_num [poseOld, testDetection, testMatcherCfg]
  have dtC : poseNew.timestamp - testDetection.timestamp
      - testMatcherCfg.frame_to_pose_latency = 100 := by
    norm_num [poseNew, testDetection, testMatcherCfg]
  have hmin : testMatcherCfg.min_dt = 1/2 := rfl
  refine ⟨hA.1 ?_, hB.2.1 ?_ ?_, hC.2.2 ?_ ?_⟩
  · rw [dtA, hmin, abs_le]
    norm_num
  · rw [dtB, hmin, abs_le]
    norm_num
  · rw [dtB, hmin]
    norm_num
  · rw [dtC, hmin, abs_le]
    norm_num
  · rw [dtC, hmin]
    norm_num

end

end LAD
